import Mathlib

/-!
Verification of the Meerschaum SQL pipes connector
(`meerschaum/connectors/sql/_pipes.py`) against its natural-language
specification.

The Python functions are shallowly embedded as pure Lean functions.
External effects (database execution results, table existence checks,
results of helper calls that live outside the connector module) are
passed in as explicit inputs, and the writes a call performs are
returned as an explicit effects record, so that control-flow and
state-change properties of the source can be stated and proved.
-/

namespace Meerschaum

/-- A batch row: a mapping from column name to value, as in a dataframe record. -/
def Row : Type := List (String × Int)

instance : DecidableEq Row := by
  unfold Row
  infer_instance

instance : Inhabited Row := ⟨([] : List (String × Int))⟩

/-- A row batch (the dataframe handed to `sync_pipe`). -/
def Batch : Type := List Row

instance : DecidableEq Batch := by
  unfold Batch
  infer_instance

instance : Inhabited Batch := ⟨([] : List Row)⟩

/-- The length of a batch, as used by the sync summary message. -/
def Batch.size (b : Batch) : Nat := List.length b

/-- JSON-like parameter values, as stored in the pipes table `parameters` column. -/
inductive JVal where
  | atom : Int → JVal
  | obj : List (String × JVal) → JVal
deriving Repr, Inhabited

/-- Look up a field of a JSON object field list. -/
def lookupField (o : List (String × JVal)) (k : String) : Option JVal :=
  match o.find? (fun kv => kv.1 = k) with
  | some kv => some kv.2
  | none => none

/-- Replace the value of field `k` (or append it when absent). -/
def setField (o : List (String × JVal)) (k : String) (v : JVal) : List (String × JVal) :=
  if o.any (fun kv => kv.1 = k) then
    o.map (fun kv => if kv.1 = k then (k, v) else kv)
  else
    o ++ [(k, v)]

mutual

/-- Modelled from the spec: `apply_patch_to_config` (from
`meerschaum.config._patch`, whose source is not included) deep-merges the
`patch` parameters onto the `original` parameters: object fields are merged
recursively, with patch values winning at the leaves; fields only present in
the original are kept. -/
def apply_patch_to_config : JVal → JVal → JVal
  | JVal.obj o, JVal.obj p => JVal.obj (patch_fields o p)
  | _, patch => patch
termination_by _ p => sizeOf p

/-- Fold the patch fields into the original field list, one field at a time. -/
def patch_fields : List (String × JVal) → List (String × JVal) → List (String × JVal)
  | orig, [] => orig
  | o, (k, v) :: rest =>
    let merged :=
      match lookupField o k with
      | some ov => apply_patch_to_config ov v
      | none => v
    patch_fields (setField o k merged) rest
termination_by _ p => sizeOf p

end

/-!
## `sync_pipe`

The orchestrator `sync_pipe(self, pipe, df, begin, end, chunksize,
check_existing, ...)` is embedded as a pure function over a `SyncEnv`
environment that supplies the outcome of every external call it makes
(registration lookup, table existence, `get_add_columns_queries`,
`exec_queries`, `pipe.filter_existing`, `to_sql`, `create_indices`), and it
returns, next to the source's `SuccessTuple`, a `SyncEffects` record of the
store-mutating calls it actually issued.
-/

/-- Outcomes of the external calls made by `sync_pipe`. -/
structure SyncEnv where
  /-- `pipe.get_id(...)` is non-null, i.e. the pipe is already registered. -/
  pipeRegistered : Bool
  /-- Success flag of `pipe.register(...)`. -/
  registerSuccess : Bool
  /-- Message of `pipe.register(...)`. -/
  registerMsg : String
  /-- `pipe.exists(...)`: the pipe's target table already exists. -/
  tableExists : Bool
  /-- Result of `self.get_add_columns_queries(pipe, df, ...)`. -/
  addColsQueries : List String
  /-- Success of `self.exec_queries(add_cols_queries, ...)`. -/
  addColsExecSuccess : Bool
  /-- Result of `pipe.filter_existing(df, ...)`: `(unseen_df, update_df, delta_df)`. -/
  filterExisting : Batch → Batch × Option Batch × Batch
  /-- Success of `self.exec_queries(queries, break_on_error=True, ...)`
  applying the shadow-table update queries. -/
  updateApplySuccess : Bool
  /-- `stats['success']` of `self.to_sql(unseen_df, name=pipe.target, ...)`. -/
  insertSuccess : Bool
  /-- `stats['msg']` of `self.to_sql(unseen_df, name=pipe.target, ...)`. -/
  insertMsg : String
  /-- Success of `self.create_indices(pipe, ...)`. -/
  createIndicesSuccess : Bool

/-- Record of the store-mutating calls issued by one `sync_pipe` call. -/
structure SyncEffects where
  /-- `pipe.register(...)` was called. -/
  attemptedRegister : Bool := false
  /-- The add-columns queries were executed (table existed, queries non-empty). -/
  ranAddColumns : Bool := false
  /-- A warning was emitted because executing the add-columns queries failed. -/
  warnedAddColsFailure : Bool := false
  /-- The `(unseen, update, delta)` partition computed for the batch. -/
  partition : Option (Batch × Option Batch × Batch) := none
  /-- `update_df` was written to the temporary shadow table `'_' + pipe.target`. -/
  wroteTempTable : Bool := false
  /-- The dialect-specific upsert queries joining the shadow table were executed. -/
  ranUpdateQueries : Bool := false
  /-- The temporary shadow pipe was dropped after a successful update. -/
  droppedTempTable : Bool := false
  /-- `to_sql(unseen_df, name=pipe.target, ...)` was called on the main table. -/
  insertedUnseen : Bool := false
  /-- `create_indices(pipe, ...)` was called (table newly created in this call). -/
  ranCreateIndices : Bool := false
deriving DecidableEq

/-- Shallow embedding of `sync_pipe` from
`meerschaum/connectors/sql/_pipes.py`. The `df is None` guard, the
registration step, the add-columns step (whose failure only warns), the
`check_existing` partition, the fatal shadow-table update step, the unseen
insert, and the create-indices step for new tables are translated in source
order. -/
def sync_pipe (env : SyncEnv) (df : Option Batch) (check_existing : Bool) :
    (Bool × String) × SyncEffects :=
  match df with
  | none => ((false, "DataFrame is None. Cannot sync."), {})
  | some df =>
    let regAttempted := !env.pipeRegistered
    if regAttempted && !env.registerSuccess then
      ((false, env.registerMsg), { attemptedRegister := true })
    else
      let e0 : SyncEffects := { attemptedRegister := regAttempted }
      let stage :=
        if !env.tableExists then
          (false, true, e0)
        else
          (check_existing, false,
            { e0 with
              ranAddColumns := !env.addColsQueries.isEmpty,
              warnedAddColsFailure :=
                !env.addColsQueries.isEmpty && !env.addColsExecSuccess })
      let ce := stage.1
      let is_new := stage.2.1
      let e1 := stage.2.2
      let part := if ce then env.filterExisting df else (df, none, df)
      let e2 := { e1 with partition := some part }
      let unseen := part.1
      let update := part.2.1
      let hasUpdate := match update with
        | some u => !u.isEmpty
        | none => false
      if hasUpdate && !env.updateApplySuccess then
        ((false, "Failed to apply update."),
          { e2 with wroteTempTable := true, ranUpdateQueries := true })
      else
        let e3 :=
          if hasUpdate then
            { e2 with
              wroteTempTable := true, ranUpdateQueries := true,
              droppedTempTable := true }
          else e2
        let e4 := { e3 with insertedUnseen := true }
        let e5 := if is_new then { e4 with ranCreateIndices := true } else e4
        if !env.insertSuccess then
          ((false, env.insertMsg), e5)
        else
          ((true,
            "Inserted " ++ toString unseen.size ++ ", updated "
              ++ toString (match update with
                | some u => u.size
                | none => 0)
              ++ " rows."), e5)

/-- A sample environment used to instantiate the sync theorems. -/
def envA : SyncEnv :=
  { pipeRegistered := true
    registerSuccess := true
    registerMsg := "registered"
    tableExists := true
    addColsQueries := []
    addColsExecSuccess := true
    filterExisting := fun d => (([] : List Row), some d, d)
    updateApplySuccess := false
    insertSuccess := true
    insertMsg := "insert failed"
    createIndicesSuccess := true }

/-- C1: In `sync_pipe`, if applying the update subset fails (the shadow-table
upsert queries fail), the whole call returns a failure outcome and the unseen
rows are not written to the main table (no unseen-row insert is issued). -/
theorem sync_pipe_update_failure_fatal (env : SyncEnv) (df u : Batch) (ce : Bool)
    (hreg : env.pipeRegistered = true)
    (hex : env.tableExists = true)
    (hce : ce = true)
    (hupd : (env.filterExisting df).2.1 = some u)
    (hu : List.isEmpty u = false)
    (hfail : env.updateApplySuccess = false) :
    (sync_pipe env (some df) ce).1 = (false, "Failed to apply update.") ∧
    (sync_pipe env (some df) ce).2.insertedUnseen = false := by
  simp [sync_pipe, hreg, hex, hce, hupd, hu, hfail]

/-- C1 witness: a concrete batch and environment where the update apply step
fails and the call both fails and withholds the unseen insert. -/
theorem sync_pipe_update_failure_fatal_witness :
    (sync_pipe envA (some [[("a", 1)]]) true).1 = (false, "Failed to apply update.") ∧
    (sync_pipe envA (some [[("a", 1)]]) true).2.insertedUnseen = false :=
  sync_pipe_update_failure_fatal envA [[("a", 1)]] [[("a", 1)]] true
    rfl rfl rfl rfl rfl rfl

/-- C2: When `check_existing` is disabled (and it is forced off whenever the
pipe's table does not yet exist), `sync_pipe` skips the existing-row fetch and
partitions the batch as unseen = the whole batch, update = `none` (the empty
update set, counted as zero updated rows), delta = the whole batch. -/
theorem sync_pipe_no_check_existing_partition (env : SyncEnv) (df : Batch) (ce : Bool)
    (hreg : env.pipeRegistered = true ∨ env.registerSuccess = true)
    (hskip : env.tableExists = false ∨ ce = false) :
    (sync_pipe env (some df) ce).2.partition = some (df, none, df) := by
  have hreg' : (!env.pipeRegistered && !env.registerSuccess) = false := by
    rcases hreg with h | h <;> simp [h]
  rcases hskip with h | h
  · cases hins : env.insertSuccess <;> simp [sync_pipe, hreg', h, hins]
  · cases henv : env.tableExists <;> cases hins : env.insertSuccess <;>
      simp [sync_pipe, hreg', h, henv, hins]

/-- C2 witness: with a non-existent table the whole concrete batch is unseen,
the update set is empty and the delta is the whole batch. -/
theorem sync_pipe_no_check_existing_partition_witness :
    (sync_pipe { envA with tableExists := false } (some [[("a", 1)]]) true).2.partition
      = some ([[("a", 1)]], none, [[("a", 1)]]) :=
  sync_pipe_no_check_existing_partition { envA with tableExists := false }
    [[("a", 1)]] true (Or.inl rfl) (Or.inl rfl)

/-- C8: In `sync_pipe`, when the table already exists and executing the
add-columns (schema reconciliation) queries fails, the failure is only logged
(a warning is emitted), the outcome is the same as if the queries had
succeeded, and the call still continues through to the unseen-row insert. -/
theorem sync_pipe_add_columns_failure_nonfatal (env : SyncEnv) (df : Batch) (ce : Bool)
    (hreg : env.pipeRegistered = true)
    (hex : env.tableExists = true)
    (hq : env.addColsQueries.isEmpty = false)
    (hfail : env.addColsExecSuccess = false)
    (hupd : env.updateApplySuccess = true) :
    (sync_pipe env (some df) ce).2.warnedAddColsFailure = true ∧
    (sync_pipe env (some df) ce).1 =
      (sync_pipe { env with addColsExecSuccess := true } (some df) ce).1 ∧
    (sync_pipe env (some df) ce).2.insertedUnseen = true := by
  cases hce : ce <;> cases hins : env.insertSuccess <;>
    rcases hu : (env.filterExisting df).2.1 with _ | u <;>
    first
      | (cases hue : List.isEmpty u <;>
          simp [sync_pipe, hreg, hex, hq, hfail, hupd, hce, hins, hu, hue])
      | simp [sync_pipe, hreg, hex, hq, hfail, hupd, hce, hins, hu]

/-- C8 witness: a concrete environment where the add-columns queries fail,
only a warning is recorded and the unseen insert still happens. -/
theorem sync_pipe_add_columns_failure_nonfatal_witness :
    (sync_pipe
        { envA with
          addColsQueries := ["ALTER"], addColsExecSuccess := false,
          updateApplySuccess := true }
        (some [[("a", 1)]]) true).2.warnedAddColsFailure = true ∧
    (sync_pipe
        { envA with
          addColsQueries := ["ALTER"], addColsExecSuccess := false,
          updateApplySuccess := true }
        (some [[("a", 1)]]) true).1 =
      (sync_pipe
        { envA with
          addColsQueries := ["ALTER"], addColsExecSuccess := true,
          updateApplySuccess := true }
        (some [[("a", 1)]]) true).1 ∧
    (sync_pipe
        { envA with
          addColsQueries := ["ALTER"], addColsExecSuccess := false,
          updateApplySuccess := true }
        (some [[("a", 1)]]) true).2.insertedUnseen = true :=
  sync_pipe_add_columns_failure_nonfatal
    { envA with
      addColsQueries := ["ALTER"], addColsExecSuccess := false,
      updateApplySuccess := true }
    [[("a", 1)]] true rfl rfl rfl rfl rfl

/-- C10: Calling `sync_pipe` with an absent batch (`df is None`) returns a
failure outcome with a message and performs no registration, no schema
change and no writes to the store. -/
theorem sync_pipe_none_df (env : SyncEnv) (ce : Bool) :
    sync_pipe env none ce =
      ((false, "DataFrame is None. Cannot sync."),
        { attemptedRegister := false, ranAddColumns := false,
          warnedAddColsFailure := false, partition := none,
          wroteTempTable := false, ranUpdateQueries := false,
          droppedTempTable := false, insertedUnseen := false,
          ranCreateIndices := false }) := rfl

/-!
## `fetch_pipes_keys`

Key lookup with include/exclude filters and tag filters. The SQL phase
(`IN` / `NOT IN` on key columns, `LIKE` clauses on the serialized
parameters) and the Python tag-refinement phase are both embedded.
-/

/-- A row of the pipes metadata table, together with the `tags` list from
its stored `parameters` JSON. -/
structure PipeRow where
  connector_keys : String
  metric_key : String
  location_key : Option String
  tags : List String
deriving Repr, DecidableEq

/-- The identity triple selected by `fetch_pipes_keys`. -/
def keyOf (r : PipeRow) : String × String × Option String :=
  (r.connector_keys, r.metric_key, r.location_key)

/-- Strip a leading negation marker `_` from a filter value, when present. -/
def strip_negation (v : String) : Option String :=
  match v.data with
  | '_' :: rest => some (String.mk rest)
  | _ => none

/-- Modelled from the spec: `separate_negation_values` (from
`meerschaum.utils.misc`, whose source is not included) splits filter values
into includes and excludes; a value starting with the negation marker `_` is
an exclusion with the marker stripped. -/
def separate_negation_values (vals : List String) : List String × List String :=
  (vals.filter (fun v => (strip_negation v).isNone),
    vals.filterMap strip_negation)

/-- The SQL test `parameters LIKE '%"tags":%"t"%'`, evaluated for rows whose
parameters hold a `tags` list of plain (quote-free) tag strings: on that
domain the pattern matches exactly when `t` is one of the stored tags. -/
def likeTagMatch (tags : List String) (t : String) : Bool :=
  tags.contains t

/-- The `WHERE` clause built by `fetch_pipes_keys`: include/exclude `IN`
filters per key column (an empty filter list imposes no restriction) and the
include/exclude tag `LIKE` clauses, each direction an `OR` over its tags. -/
def sqlRowKeep (in_ck ex_ck in_mk ex_mk in_lk ex_lk in_tags ex_tags : List String)
    (r : PipeRow) : Bool :=
  (in_ck.isEmpty || in_ck.contains r.connector_keys)
  && (ex_ck.isEmpty || !ex_ck.contains r.connector_keys)
  && (in_mk.isEmpty || in_mk.contains r.metric_key)
  && (ex_mk.isEmpty || !ex_mk.contains r.metric_key)
  && (in_lk.isEmpty || in_lk.any (fun v => r.location_key == some v))
  && (ex_lk.isEmpty || !ex_lk.any (fun v => r.location_key == some v))
  && (in_tags.isEmpty || in_tags.any (likeTagMatch r.tags))
  && (ex_tags.isEmpty || ex_tags.any (fun t => !likeTagMatch r.tags t))

/-- The per-row Python refinement loop of `fetch_pipes_keys`: append the
identity once per matching included tag; then, for each excluded tag, remove
the identity when the tag is present (Python `list.remove`, which raises when
the identity is absent — modelled as `none`) and append the identity again
when the tag is absent. -/
def refine_row (in_tags ex_tags : List String)
    (ktup : String × String × Option String) (actual_tags : List String)
    (keys : List (String × String × Option String)) :
    Option (List (String × String × Option String)) :=
  let keys1 := in_tags.foldl
    (fun ks nt => if actual_tags.contains nt then ks ++ [ktup] else ks) keys
  ex_tags.foldlM
    (fun ks xt =>
      if actual_tags.contains xt then
        if ks.contains ktup then some (ks.erase ktup) else none
      else some (ks ++ [ktup]))
    keys1

/-- Shallow embedding of `fetch_pipes_keys` from
`meerschaum/connectors/sql/_pipes.py`, restricted to list-valued key filters
over rows of the pipes table. The SQL phase applies the include/exclude `IN`
and tag-`LIKE` clauses; when tags were given, the Python phase then re-checks
the tags row by row with the append/remove loops of the source. -/
def fetch_pipes_keys (connector_keys metric_keys location_keys tags : List String)
    (rows : List PipeRow) : Option (List (String × String × Option String)) :=
  let ck := separate_negation_values connector_keys
  let mk := separate_negation_values metric_keys
  let lk := separate_negation_values location_keys
  let tg := separate_negation_values tags
  let sqlRows := rows.filter
    (fun r => sqlRowKeep ck.1 ck.2 mk.1 mk.2 lk.1 lk.2 tg.1 tg.2 r)
  if tags.isEmpty then some (sqlRows.map keyOf)
  else sqlRows.foldlM (fun ks r => refine_row tg.1 tg.2 (keyOf r) r.tags ks) []

/-- C3: counter-evidence at the failing input. The claim (and the spec) say
an identity matching any excluded tag is dropped, so the stored pipe with
tags `x` and `z` must be excluded by the tag filter `[x, _z, _w]` — the
expected result is the empty list. The code instead keeps the identity: the
exclusion pass removes it for `z` but re-appends it because the second
excluded tag `w` is absent from its tag list. -/
theorem fetch_pipes_keys_excluded_tag_kept :
    fetch_pipes_keys ["a"] [] [] ["x", "_z", "_w"]
        [{ connector_keys := "a", metric_key := "m", location_key := none,
           tags := ["x", "z"] }]
      = some [("a", "m", none)] := by
  decide

/-!
## `get_add_columns_queries` and `get_drop_index_queries`

Schema reconciliation and the drop side of the index planner. External
introspection (table existence, live column set, hypertable detection) is
passed in as inputs.
-/

/-- Remove the last character of a string (the Python `query[:-1]`). -/
def drop_last_char (s : String) : String := String.mk s.data.dropLast

/-- The single multi-column `ALTER TABLE ... ADD ...` statement built by
`get_add_columns_queries` for the new columns; the trailing comma of the last
`ADD` clause is dropped. -/
def alter_columns_query (target : String) (new_cols : List String)
    (colType : String → String) : String :=
  drop_last_char
    ("ALTER TABLE " ++ target
      ++ String.join (new_cols.map (fun c => "\nADD " ++ c ++ " " ++ colType c ++ ",")))

/-- Shallow embedding of `get_add_columns_queries` from
`meerschaum/connectors/sql/_pipes.py`. Inputs supply the outcomes of the
external calls: whether the target table exists, the batch's column set, the
live table's column set, the dialect type mapping `get_db_type`, and the
flattened drop-index / create-index query lists obtained from
`get_drop_index_queries` and `get_create_index_queries`. -/
def get_add_columns_queries (tableExists : Bool) (dfCols dbCols : List String)
    (colType : String → String) (flavor target : String)
    (dropIndexQueries createIndexQueries : List String) : List String :=
  if !tableExists then []
  else
    let new_cols := dfCols.filter (fun c => !dbCols.contains c)
    if new_cols.isEmpty then []
    else
      let query := alter_columns_query target new_cols colType
      if flavor != "duckdb" then [query]
      else dropIndexQueries ++ [query] ++ createIndexQueries

/-- C4: schema reconciliation returns an empty statement list when the
pipe's table does not yet exist; when new columns are present it returns,
for duckdb (where adding columns invalidates indices), all drop-index
statements, then the single `ALTER TABLE ... ADD` statement covering the new
columns, then all re-create-index statements, and for every other dialect
just the single `ALTER` statement. -/
theorem get_add_columns_queries_spec (tableExists : Bool)
    (dfCols dbCols : List String) (colType : String → String)
    (flavor target : String) (dropQ createQ : List String) :
    (tableExists = false →
      get_add_columns_queries tableExists dfCols dbCols colType flavor target dropQ createQ
        = []) ∧
    ((dfCols.filter (fun c => !dbCols.contains c)).isEmpty = false →
      (flavor = "duckdb" →
        get_add_columns_queries true dfCols dbCols colType flavor target dropQ createQ
          = dropQ
            ++ [alter_columns_query target (dfCols.filter (fun c => !dbCols.contains c)) colType]
            ++ createQ) ∧
      (flavor ≠ "duckdb" →
        get_add_columns_queries true dfCols dbCols colType flavor target dropQ createQ
          = [alter_columns_query target (dfCols.filter (fun c => !dbCols.contains c)) colType])) := by
  refine ⟨fun h => by simp [get_add_columns_queries, h], fun hnew => ⟨fun hf => ?_, fun hf => ?_⟩⟩
  · have hnew' : ∃ x ∈ dfCols, x ∉ dbCols := by simpa using hnew
    simp [get_add_columns_queries, hf, hnew']
  · have hnew' : ∃ x ∈ dfCols, x ∉ dbCols := by simpa using hnew
    simp [get_add_columns_queries, bne_iff_ne, hf, hnew']

/-- C4 witness: with a non-existent table the result is empty, and on duckdb
with one new column the result is drops, then the one `ALTER`, then creates. -/
theorem get_add_columns_queries_spec_witness :
    get_add_columns_queries false ["hum"] [] (fun _ => "INT") "duckdb" "t" ["d"] ["c"]
      = [] ∧
    get_add_columns_queries true ["hum"] [] (fun _ => "INT") "duckdb" "t" ["d"] ["c"]
      = ["d"]
        ++ [alter_columns_query "t" (["hum"].filter (fun c => !([] : List String).contains c))
              (fun _ => "INT")]
        ++ ["c"] :=
  ⟨(get_add_columns_queries_spec false ["hum"] [] (fun _ => "INT") "duckdb" "t" ["d"] ["c"]).1
      rfl,
    ((get_add_columns_queries_spec true ["hum"] [] (fun _ => "INT") "duckdb" "t" ["d"] ["c"]).2
      rfl).1 rfl⟩

/-- The full-table-rebuild statements emitted for a hypertable: optionally
drop a stale temporary migration table, then copy all rows into the
temporary table, drop the original table, and rename the temporary table
back to the original name. -/
def nuke_queries (tempTableExists : Bool) (target : String) : List String :=
  let temp_table := "_" ++ target ++ "_temp_migration"
  (if tempTableExists then ["DROP TABLE " ++ temp_table] else [])
    ++ ["SELECT * INTO " ++ temp_table ++ " FROM " ++ target,
        "DROP TABLE " ++ target,
        "ALTER TABLE " ++ temp_table ++ " RENAME TO " ++ target]

/-- The role, if any, that receives the rebuild sequence: for a hypertable,
the first of `datetime`, `id` (in that processing order) present in the
pipe's indices. -/
def nuked_role (isHypertable : Bool) (indices : List (String × String)) :
    Option String :=
  if isHypertable then
    if indices.any (fun p => p.1 == "datetime") then some "datetime"
    else if indices.any (fun p => p.1 == "id") then some "id"
    else none
  else none

/-- Shallow embedding of `get_drop_index_queries` from
`meerschaum/connectors/sql/_pipes.py`. `indices` is the role to index-name
mapping `pipe.get_indices()` as an association list in insertion order;
`isHypertable` is the result of the dialect introspection query (false when
the dialect has no hypertable query); `tempTableExists` is the
`table_exists` check for the temporary migration table. -/
def get_drop_index_queries (pipeExists isHypertable tempTableExists : Bool)
    (indices : List (String × String)) (target : String) :
    List (String × List String) :=
  if !pipeExists then []
  else
    let nukedKey := nuked_role isHypertable indices
    let base : List (String × List String) :=
      match nukedKey with
      | some k => [(k, nuke_queries tempTableExists target)]
      | none => []
    let rest : List (String × String) :=
      match nukedKey with
      | some k => indices.filter (fun p : String × String => !(p.1 == k))
      | none => indices
    base ++ rest.map (fun p : String × String => (p.1, ["DROP INDEX " ++ p.2]))

/-- C5: in the drop-plan of a hypertable where the `datetime` or `id` role is
dropped, the plan is exactly one full-table-rebuild sequence attributed to
whichever of `datetime`/`id` is processed first, followed by a single plain
`DROP INDEX` statement for every other role; the rebuild appears exactly
once even when both partition-bearing roles are dropped. -/
theorem get_drop_index_queries_spec (tempTableExists : Bool)
    (indices : List (String × String)) (target k : String)
    (hk : nuked_role true indices = some k) :
    get_drop_index_queries true true tempTableExists indices target
      = (k, nuke_queries tempTableExists target)
          :: (indices.filter (fun p => !(p.1 == k))).map
              (fun p => (p.1, ["DROP INDEX " ++ p.2])) ∧
    (k = "datetime" ∨ k = "id") ∧
    (indices.any (fun p => p.1 == "datetime") = true → k = "datetime") ∧
    List.countP
      (fun e => decide (e.2 = nuke_queries tempTableExists target))
      (get_drop_index_queries true true tempTableExists indices target) = 1 := by
  have hkcase : (k = "datetime" ∨ k = "id") ∧
      (indices.any (fun p => p.1 == "datetime") = true → k = "datetime") := by
    by_cases hdt : indices.any (fun p => p.1 == "datetime") = true
    · simp [nuked_role, hdt] at hk
      exact ⟨Or.inl hk.symm, fun _ => hk.symm⟩
    · by_cases hid : indices.any (fun p => p.1 == "id") = true
      · simp [nuked_role, hdt, hid] at hk
        exact ⟨Or.inr hk.symm, fun h => absurd h hdt⟩
      · simp [nuked_role, hdt, hid] at hk
  have hstruct : get_drop_index_queries true true tempTableExists indices target
      = (k, nuke_queries tempTableExists target)
          :: (indices.filter (fun p => !(p.1 == k))).map
              (fun p => (p.1, ["DROP INDEX " ++ p.2])) := by
    simp [get_drop_index_queries, hk]
  refine ⟨hstruct, hkcase.1, hkcase.2, ?_⟩
  rw [hstruct, List.countP_cons]
  have h0 : List.countP (fun e => decide (e.2 = nuke_queries tempTableExists target))
      ((indices.filter (fun p => !(p.1 == k))).map
        (fun p => (p.1, ["DROP INDEX " ++ p.2]))) = 0 := by
    rw [List.countP_eq_zero]
    intro e he
    rcases List.mem_map.mp he with ⟨p, hp, rfl⟩
    simp only [decide_eq_true_eq]
    cases tempTableExists <;> simp [nuke_queries]
  rw [h0]
  simp

/-- C5 witness: dropping `datetime`, `id` and `station` indices of a
hypertable yields one rebuild attributed to `datetime` and plain drops for
`id` and `station`. -/
theorem get_drop_index_queries_spec_witness :
    get_drop_index_queries true true false
        [("datetime", "dt_ix"), ("id", "id_ix"), ("station", "st_ix")] "t"
      = ("datetime", nuke_queries false "t")
          :: ([("datetime", "dt_ix"), ("id", "id_ix"), ("station", "st_ix")].filter
              (fun p => !(p.1 == "datetime"))).map
              (fun p => (p.1, ["DROP INDEX " ++ p.2])) ∧
    ("datetime" = "datetime" ∨ "datetime" = "id") ∧
    ([("datetime", "dt_ix"), ("id", "id_ix"), ("station", "st_ix")].any
        (fun p => p.1 == "datetime") = true → "datetime" = "datetime") ∧
    List.countP (fun e => decide (e.2 = nuke_queries false "t"))
      (get_drop_index_queries true true false
        [("datetime", "dt_ix"), ("id", "id_ix"), ("station", "st_ix")] "t") = 1 :=
  get_drop_index_queries_spec false
    [("datetime", "dt_ix"), ("id", "id_ix"), ("station", "st_ix")] "t" "datetime"
    (by decide)

/-!
## `get_sync_time`

Timestamps are modelled as seconds; the built query orders the (filtered)
datetime values and takes the first row, so `newest` selects the maximum and
otherwise the minimum.
-/

/-- Round a timestamp (in seconds) down to the nearest minute
(`round_time(st, date_delta=timedelta(minutes=1), to='down')`). -/
def round_time_down (t : Nat) : Nat := t / 60 * 60

/-- The datetime column `get_sync_time` works with: the designated
`pipe.columns.get('datetime')` when set, otherwise the external fallback
`pipe.guess_datetime()`. -/
def resolved_datetime (designated guessed : Option String) : Option String :=
  match designated with
  | some c => some c
  | none => guessed

/-- Shallow embedding of `get_sync_time` from
`meerschaum/connectors/sql/_pipes.py`. `designated` is
`pipe.columns.get('datetime')`; `guessed` is the result of the external
fallback `pipe.guess_datetime()`, consulted when no datetime column is
designated; `rows` holds the datetime values of the pipe's table rows and
`psel` is the `params` filter of the built `WHERE` clause. -/
def get_sync_time (designated guessed : Option String) (rows : List Nat)
    (psel : Nat → Bool) (newest round_down : Bool) : Option Nat :=
  match resolved_datetime designated guessed with
  | none => none
  | some _ =>
    let filtered := rows.filter psel
    let db_time := if newest then filtered.max? else filtered.min?
    match db_time with
    | none => none
    | some st => some (if round_down then round_time_down st else st)

/-- C6 counterexample: the claim says `sync_time` returns null whenever the
pipe has no designated datetime column; but with no designated column and a
guessed fallback datetime column, the code proceeds with the guessed column
and returns a timestamp for a non-empty table, not null. -/
theorem get_sync_time_guessed_not_null :
    get_sync_time none (some "dt") [90] (fun _ => true) true true = some 60 := by
  rfl

/-- C6 (amended): `get_sync_time` returns null when the pipe has no
designated datetime column and none can be guessed, or when no row matches
(in particular when the table is empty); otherwise — whether the datetime
column that resolves is designated or guessed — with `newest` it returns the
most recent matching timestamp and with `newest = false` the oldest, rounded
down to the nearest minute when `round_down` is requested. -/
theorem get_sync_time_spec (designated guessed : Option String) (rows : List Nat)
    (psel : Nat → Bool) (newest round_down : Bool) :
    (designated = none → guessed = none →
      get_sync_time designated guessed rows psel newest round_down = none) ∧
    (rows.filter psel = [] →
      get_sync_time designated guessed rows psel newest round_down = none) ∧
    (∀ c t, resolved_datetime designated guessed = some c →
      (rows.filter psel).max? = some t →
      get_sync_time designated guessed rows psel true round_down
        = some (if round_down then round_time_down t else t)) ∧
    (∀ c t, resolved_datetime designated guessed = some c →
      (rows.filter psel).min? = some t →
      get_sync_time designated guessed rows psel false round_down
        = some (if round_down then round_time_down t else t)) := by
  refine ⟨fun h1 h2 => by simp [get_sync_time, resolved_datetime, h1, h2],
    fun h => ?_,
    fun c t h1 h2 => by simp [get_sync_time, h1, h2],
    fun c t h1 h2 => by simp [get_sync_time, h1, h2]⟩
  rcases hr : resolved_datetime designated guessed with _ | c
  · cases newest <;> simp [get_sync_time, hr]
  · cases newest <;> simp [get_sync_time, hr, h]

/-- C6 witness (round-trip): after timestamps 60 < 150 < 200, the newest
sync time rounded down to the minute is 180 and the oldest is 60, both for a
designated datetime column and for one that is only guessed. -/
theorem get_sync_time_spec_witness :
    get_sync_time (some "dt") none [60, 150, 200] (fun _ => true) true true
      = some 180 ∧
    get_sync_time (some "dt") none [60, 150, 200] (fun _ => true) false true
      = some 60 ∧
    get_sync_time none (some "g") [60, 150, 200] (fun _ => true) true true
      = some 180 ∧
    get_sync_time none (some "g") [60, 150, 200] (fun _ => true) false true
      = some 60 :=
  ⟨by
    have h := (get_sync_time_spec (some "dt") none [60, 150, 200]
      (fun _ => true) true true).2.2.1 "dt" 200 rfl (by rfl)
    simpa using h,
   by
    have h := (get_sync_time_spec (some "dt") none [60, 150, 200]
      (fun _ => true) false true).2.2.2 "dt" 60 rfl (by rfl)
    simpa using h,
   by
    have h := (get_sync_time_spec none (some "g") [60, 150, 200]
      (fun _ => true) true true).2.2.1 "g" 200 rfl (by rfl)
    simpa using h,
   by
    have h := (get_sync_time_spec none (some "g") [60, 150, 200]
      (fun _ => true) false true).2.2.2 "g" 60 rfl (by rfl)
    simpa using h⟩

/-!
## `edit_pipe` and `drop_pipe`
-/

/-- The identity triple of a pipe. -/
structure PipeKeys where
  connector_keys : String
  metric_key : String
  location_key : Option String
deriving Repr, DecidableEq

/-- The in-memory `Pipe` object handed to `edit_pipe`: its keys, its cached
registration id, and its in-memory `parameters`. -/
structure PipeObj where
  keys : PipeKeys
  id : Option Nat
  parameters : JVal

/-- The pipes metadata table: one row `(pipe_id, keys, parameters)` per
registered pipe. -/
structure PipesTable where
  rows : List (Nat × PipeKeys × JVal)

/-- The parameters that a freshly constructed
`Pipe(connector_keys, metric_key, location_key)` reads back from the
instance's pipes table (the empty object when the keys are not registered),
as used by the `patch` branch of `edit_pipe`. -/
def stored_parameters (tbl : PipesTable) (ks : PipeKeys) : JVal :=
  match tbl.rows.find? (fun r => decide (r.2.1 = ks)) with
  | some r => r.2.2
  | none => JVal.obj []

/-- Shallow embedding of `edit_pipe` from
`meerschaum/connectors/sql/_pipes.py`. When `patch` is set, the written
parameters are `apply_patch_to_config` of the freshly re-read stored
parameters and the in-memory `pipe.parameters`; otherwise the in-memory
parameters overwrite. `execOk` is the outcome of executing the `UPDATE`
statement against the pipes table. -/
def edit_pipe (tbl : PipesTable) (pipe : PipeObj) (patch execOk : Bool) :
    (Bool × String) × PipesTable :=
  match pipe.id with
  | none => ((false, "not registered and cannot be edited."), tbl)
  | some pid =>
    let parameters :=
      if !patch then pipe.parameters
      else apply_patch_to_config (stored_parameters tbl pipe.keys) pipe.parameters
    if execOk then
      ((true, "Successfully edited."),
        ⟨tbl.rows.map (fun r => if r.1 = pid then (r.1, r.2.1, parameters) else r)⟩)
    else
      ((false, "Failed to edit."), tbl)

/-- C7: `edit_pipe` fails for every pipe whose identity has no registered id
(and leaves the table untouched); with `patch` set, the parameters written
for the pipe's id are the deep merge of the caller's new parameters onto the
parameters freshly re-read from the store by keys — not onto the caller's
in-memory copy, which only supplies the patch side. -/
theorem edit_pipe_spec (tbl : PipesTable) (pipe : PipeObj) (execOk : Bool) :
    (pipe.id = none →
      edit_pipe tbl pipe true execOk
        = ((false, "not registered and cannot be edited."), tbl)) ∧
    (∀ pid, pipe.id = some pid → execOk = true →
      (edit_pipe tbl pipe true execOk).2.rows
        = tbl.rows.map (fun r => if r.1 = pid then
            (r.1, r.2.1,
              apply_patch_to_config (stored_parameters tbl pipe.keys) pipe.parameters)
          else r)) := by
  constructor
  · intro h
    simp [edit_pipe, h]
  · intro pid h hexec
    simp [edit_pipe, h, hexec]

/-- C7 witness: a registered pipe whose in-memory copy of the parameters is
stale is edited with `patch`; the written row carries the merge of the fresh
stored parameters with the new ones. -/
theorem edit_pipe_spec_witness :
    (edit_pipe
        ⟨[(1, ⟨"a", "m", none⟩, JVal.obj [("x", JVal.atom 1)])]⟩
        ⟨⟨"a", "m", none⟩, some 1, JVal.obj [("y", JVal.atom 2)]⟩
        true true).2.rows
      = [(1, ⟨"a", "m", none⟩,
          apply_patch_to_config
            (stored_parameters ⟨[(1, ⟨"a", "m", none⟩, JVal.obj [("x", JVal.atom 1)])]⟩
              ⟨"a", "m", none⟩)
            (JVal.obj [("y", JVal.atom 2)]))] :=
  (edit_pipe_spec
      ⟨[(1, ⟨"a", "m", none⟩, JVal.obj [("x", JVal.atom 1)])]⟩
      ⟨⟨"a", "m", none⟩, some 1, JVal.obj [("y", JVal.atom 2)]⟩
      true).2 1 rfl rfl

/-- The state touched by `drop_pipe`: the tables existing in the instance
database and the pipe's metadata registration row (id and parameters). -/
structure PipeStore where
  tables : List String
  registration : Option (Nat × JVal)

/-- Shallow embedding of `drop_pipe` from
`meerschaum/connectors/sql/_pipes.py`. `dropOk t` is the outcome of
executing `DROP TABLE t` (a failed drop leaves the table in place). The
target table and the temporary shadow table `'_' + target` are each dropped
when they exist; the registration row is not touched. -/
def drop_pipe (dropOk : String → Bool) (st : PipeStore) (target : String) :
    (Bool × String) × PipeStore :=
  let temp_target := "_" ++ target
  let success1 :=
    if st.tables.contains target then dropOk target else true
  let tables1 :=
    if st.tables.contains target && dropOk target then
      st.tables.filter (fun t => !(t == target))
    else st.tables
  let success2 :=
    if st.tables.contains temp_target then success1 && dropOk temp_target
    else success1
  let tables2 :=
    if st.tables.contains temp_target && dropOk temp_target then
      tables1.filter (fun t => !(t == temp_target))
    else tables1
  ((success2, if success2 then "Success" else "Failed to drop."),
    ⟨tables2, st.registration⟩)

/-- C9: `drop_pipe` leaves the pipe's metadata registration unchanged; it
returns success exactly when every one of the two tables (main target and
`'_'`-prefixed shadow) that existed was dropped; and on success neither
table exists afterwards. -/
theorem drop_pipe_spec (dropOk : String → Bool) (st : PipeStore) (target : String) :
    (drop_pipe dropOk st target).2.registration = st.registration ∧
    ((drop_pipe dropOk st target).1.1 = true ↔
      ((st.tables.contains target = true → dropOk target = true) ∧
        (st.tables.contains ("_" ++ target) = true →
          dropOk ("_" ++ target) = true))) ∧
    ((drop_pipe dropOk st target).1.1 = true →
      (drop_pipe dropOk st target).2.tables.contains target = false ∧
      (drop_pipe dropOk st target).2.tables.contains ("_" ++ target) = false) := by
  cases h1 : st.tables.contains target <;>
    cases h2 : st.tables.contains ("_" ++ target) <;>
    cases h3 : dropOk target <;>
    cases h4 : dropOk ("_" ++ target) <;>
    simp_all [drop_pipe]

/-- C9 witness: dropping a pipe whose main and shadow tables both exist
succeeds and leaves the registration row untouched. -/
theorem drop_pipe_spec_witness :
    (drop_pipe (fun _ => true)
        ⟨["t", "_t", "other"], some (1, JVal.obj [])⟩ "t").2.registration
      = some (1, JVal.obj []) :=
  (drop_pipe_spec (fun _ => true)
    ⟨["t", "_t", "other"], some (1, JVal.obj [])⟩ "t").1

end Meerschaum
